import Mathlib

/-
  Verification of the ExclusivePtr library (LL/SC-style exclusive memory cell).

  This file shallowly embeds the generic fallback backend (src/generic.rs) and
  the abstract semantics of the x86-64 tagged-CAS backend
  (src/exclusive_target/cas_impl/exclusive_64.rs), and settles the spec's
  claims against them.  Machine words (usize) are modelled as Nat, with an
  explicit `% 2 ^ 64` exactly where the source uses wrapping arithmetic
  (`wrapping_add`).  The Mutex in the generic backend serializes mutations; in
  this sequential embedding each locked critical section becomes one atomic
  state transition.  Fallible operations (atomic loads, which abort the
  process on an invalid memory ordering) are embedded in `Except String`.
-/

namespace ExclusivePtr

/-- Memory orderings, as in Rust's std::sync::atomic::Ordering. -/
inductive Ordering where
  | relaxed
  | acquire
  | release
  | acqRel
  | seqCst
deriving DecidableEq, Repr

/-- Word width of usize on the 64-bit target: words wrap modulo `WORD`. -/
def WORD : Nat := 2 ^ 64

/-- Behaviour of `AtomicUsize::load(ord)`: returns the stored word, except
that the Release and AcqRel orderings are invalid for a load and abort the
process (modelled as `Except.error`). -/
def atomicLoad (v : Nat) (ord : Ordering) : Except String Nat :=
  match ord with
  | Ordering.release => Except.error "invalid ordering for a load: Release"
  | Ordering.acqRel => Except.error "invalid ordering for a load: AcqRel"
  | _ => Except.ok v

/-- State of the generic fallback cell `Llsc` (src/generic.rs): a value word
and a version counter word.  The source also holds a `Mutex<()>` guarding
mutations; the lock carries no data and is modelled away (each critical
section is one transition of this state). -/
structure Llsc where
  val : Nat
  counter : Nat
deriving DecidableEq, Repr

/-- Result of `Llsc::cas`.  The source returns `(bool, (usize, usize))` where
on success the pair is `mem::uninitialized()` — it carries no meaningful data
and must never be read — so the success constructor carries no pair, and the
failure constructor carries the `(cval, c_counter)` pair the source builds
from the cell's current fields. -/
inductive CasResult where
  | success
  | failure (cval c_counter : Nat)
deriving DecidableEq, Repr

namespace Llsc

/-- Llsc::get_vals: `(self.val.load(ord), self.counter.load(Relaxed))`. -/
def get_vals (s : Llsc) (ord : Ordering) : Except String (Nat × Nat) := do
  let v ← atomicLoad s.val ord
  let c ← atomicLoad s.counter Ordering.relaxed
  pure (v, c)

/-- Llsc::set_val: under the lock, `self.val.store(val, Relaxed)`.  The
counter is not touched. -/
def set_val (s : Llsc) (val : Nat) : Llsc :=
  { s with val := val }

/-- Llsc::xchg_val: under the lock, read `val`, store the new word, return
the old word.  The counter is not touched. -/
def xchg_val (s : Llsc) (val : Nat) : Nat × Llsc :=
  (s.val, { s with val := val })

/-- Llsc::cas: under the lock, read both fields; if both equal the expected
`(oval, ctr)`, store `nval` and `ctr.wrapping_add(1)` and report success;
otherwise report failure with the current `(cval, c_counter)` and leave the
state unchanged.  The trailing Bool parameter is ignored by the source
(`_: bool`). -/
def cas (s : Llsc) (oval ctr nval : Nat) (_flag : Bool) : CasResult × Llsc :=
  if s.val = oval ∧ s.counter = ctr then
    (CasResult.success, { val := nval, counter := (ctr + 1) % WORD })
  else
    (CasResult.failure s.val s.counter, s)

end Llsc

/-- Word codec trait `IsUsize` (src/generic.rs): conversion between each
supported payload type and a machine word. -/
class IsUsize (T : Type) where
  from_usize : Nat → T
  to_usize : T → Nat

/-- usize payload: `val as usize` both ways (identity). -/
instance : IsUsize Nat where
  from_usize val := val
  to_usize v := v

/-- isize payload: `val as isize` reinterprets the word as a two's-complement
signed integer; `*self as usize` takes the word back modulo 2^64. -/
instance : IsUsize Int where
  from_usize val := if val < 2 ^ 63 then (val : Int) else (val : Int) - (WORD : Int)
  to_usize i := (i % (WORD : Int)).toNat

/-- Raw pointer payload `*mut T`: an opaque address-sized word, never
dereferenced at this layer. -/
structure MutPtr where
  addr : Nat
deriving DecidableEq, Repr

/-- Pointer payload: `val as *mut T` / `*self as usize` (identity on the
address word). -/
instance : IsUsize MutPtr where
  from_usize val := { addr := val }
  to_usize p := p.addr

/-- bool payload as written in the source: `from_usize(val) = (val == 0)`,
`to_usize = *self as usize` (true casts to 1, false to 0). -/
instance : IsUsize Bool where
  from_usize val := val == 0
  to_usize b := if b then 1 else 0

/-- Public cell type: an `Llsc` plus a phantom payload type. -/
structure ExclusiveData (T : Type) where
  data : Llsc
deriving DecidableEq, Repr

/-- Snapshot type `LinkedData`: the `(value, counter)` pair captured by
`load_linked`.  The source also holds a reference back to the cell; here the
cell state is passed explicitly to the conditional stores. -/
structure LinkedData (T : Type) where
  data : Nat × Nat
deriving DecidableEq, Repr

namespace ExclusiveData

variable {T : Type} [IsUsize T]

/-- ExclusiveData::new: both the value and the counter fields are initialized
to `val.to_usize()`. -/
def new (val : T) : ExclusiveData T :=
  { data := { val := IsUsize.to_usize val, counter := IsUsize.to_usize val } }

/-- ExclusiveData::load: `T::from_usize(self.data.get_vals(ord).0)`. -/
def load (c : ExclusiveData T) (ord : Ordering) : Except String T :=
  (c.data.get_vals ord).map (fun p => IsUsize.from_usize p.1)

/-- ExclusiveData::store_direct: the ordering parameter is bound to `_` and
ignored; delegates to `set_val`, which stores Relaxed under the lock. -/
def store_direct (c : ExclusiveData T) (val : T) (_ : Ordering) : ExclusiveData T :=
  { data := c.data.set_val (IsUsize.to_usize val) }

/-- ExclusiveData::exchange_direct: the ordering parameter is bound to `_`
and ignored; delegates to `xchg_val`. -/
def exchange_direct (c : ExclusiveData T) (val : T) (_ : Ordering) :
    T × ExclusiveData T :=
  let r := c.data.xchg_val (IsUsize.to_usize val)
  (IsUsize.from_usize r.1, { data := r.2 })

/-- ExclusiveData::load_linked: captures `get_vals(ord)` in a snapshot. -/
def load_linked (c : ExclusiveData T) (ord : Ordering) :
    Except String (LinkedData T) :=
  (c.data.get_vals ord).map (fun p => { data := p })

end ExclusiveData

namespace LinkedData

variable {T : Type} [IsUsize T]

/-- LinkedData::get: decodes the captured value word. -/
def get (ll : LinkedData T) : T :=
  IsUsize.from_usize ll.data.1

/-- LinkedData::store_conditional: one `cas` with the captured pair as the
expected operand; on success returns `None` (the cell now holds the new
value), on failure wraps the returned current pair in a fresh snapshot.  The
ordering parameter is bound to `_` and ignored. -/
def store_conditional (ll : LinkedData T) (val : T) (_ : Ordering)
    (c : ExclusiveData T) : Option (LinkedData T) × ExclusiveData T :=
  match c.data.cas ll.data.1 ll.data.2 (IsUsize.to_usize val) true with
  | (CasResult.success, s) => (none, { data := s })
  | (CasResult.failure cv cc, s) => (some { data := (cv, cc) }, { data := s })

/-- LinkedData::try_store_conditional: the same `cas` (with the ignored flag
set to false), returning only the success Boolean (`.0` in the source). -/
def try_store_conditional (ll : LinkedData T) (val : T) (_ : Ordering)
    (c : ExclusiveData T) : Bool × ExclusiveData T :=
  match c.data.cas ll.data.1 ll.data.2 (IsUsize.to_usize val) false with
  | (CasResult.success, s) => (true, { data := s })
  | (CasResult.failure _ _, s) => (false, { data := s })

end LinkedData

namespace CasImpl

/-- Semantics of `cas_tagged` in the x86-64 tagged-CAS backend
(src/exclusive_target/cas_impl/exclusive_64.rs).  The cell's double-width
slot is the pair `(value, counter)`; one cmpxchg16b compares the 128-bit
slot with the expected pair; if equal, it stores
`(nval, old.2.wrapping_add(1))`; the registers handed back hold the expected
pair on success and the slot's actual contents on failure, and `sete` yields
the success flag. -/
def cas_tagged (mem : Nat × Nat) (old : Nat × Nat) (nval : Nat) :
    (Bool × (Nat × Nat)) × (Nat × Nat) :=
  if mem = old then ((true, old), (nval, (old.2 + 1) % WORD))
  else ((false, mem), mem)

/-- Llsc::set_val in the tagged-CAS backend: an atomic store to the value
word only; the counter word of the slot is not touched. -/
def set_val (mem : Nat × Nat) (val : Nat) : Nat × Nat :=
  (val, mem.2)

/-- Llsc::xchg_val in the tagged-CAS backend: an atomic swap on the value
word only; returns the previous value word, the counter is not touched. -/
def xchg_val (mem : Nat × Nat) (val : Nat) : Nat × (Nat × Nat) :=
  (mem.1, (val, mem.2))

end CasImpl

/-- C1, counterexample.  A concrete ABA run on the generic backend, at the
usize payload: starting from `new(0)`, take a snapshot, then `store_direct(5)`
followed by `store_direct(0)` restores the captured value bit-for-bit; the
stale snapshot's `store_conditional(7)` then succeeds (returns the success
variant and writes 7), contradicting the claim that it must fail. -/
theorem c1_aba_counterexample :
    (ExclusiveData.load_linked (ExclusiveData.new (0 : Nat)) Ordering.relaxed
        = Except.ok { data := (0, 0) })
  ∧ (((ExclusiveData.new (0 : Nat)).store_direct 5 Ordering.relaxed).store_direct
        0 Ordering.relaxed = { data := { val := 0, counter := 0 } })
  ∧ (({ data := (0, 0) } : LinkedData Nat).store_conditional 7 Ordering.relaxed
        { data := { val := 0, counter := 0 } }
        = (none, { data := { val := 7, counter := 1 } }))
  ∧ (ExclusiveData.load (T := Nat) { data := { val := 7, counter := 1 } }
        Ordering.relaxed = Except.ok 7) := by
  refine ⟨rfl, rfl, by decide, rfl⟩

/-- C1, amended.  Direct stores never advance the version counter, in either
backend: `store_direct` and `exchange_direct` write only the value word and
leave the counter unchanged, and a snapshot's `store_conditional` succeeds
exactly when the cell's current (value, counter) pair equals the captured
pair — so a pair of direct stores that restores the captured value lets a
stale snapshot succeed. -/
theorem c1_direct_stores_never_advance_version
    (c : ExclusiveData Nat) (v : Nat) (o : Ordering) (ll : LinkedData Nat)
    (w : Nat) (m : Nat × Nat) :
    ((c.store_direct v o).data.counter = c.data.counter
      ∧ (c.store_direct v o).data.val = v)
  ∧ (((c.exchange_direct v o).2).data.counter = c.data.counter
      ∧ ((c.exchange_direct v o).2).data.val = v)
  ∧ ((CasImpl.set_val m v).2 = m.2 ∧ (CasImpl.xchg_val m v).2.2 = m.2)
  ∧ ((ll.store_conditional w o c).1 = none
      ↔ (c.data.val = ll.data.1 ∧ c.data.counter = ll.data.2)) := by
  refine ⟨⟨rfl, rfl⟩, ⟨rfl, rfl⟩, ⟨rfl, rfl⟩, ?_⟩
  unfold LinkedData.store_conditional Llsc.cas
  by_cases h : c.data.val = ll.data.1 ∧ c.data.counter = ll.data.2 <;> simp [h]

/-- C2.  The boolean codec does not round-trip: the encoder casts true to 1
and false to 0, but the decoder returns `val == 0`, so decoding the encoding
of every boolean yields its negation — `decode(encode(b)) = !b`, refuting
`decode(encode(x)) = x` at the boolean payload (the other payloads are not
at issue; the failing inputs are true and false). -/
theorem c2_bool_roundtrip_negates (b : Bool) :
    (IsUsize.from_usize (IsUsize.to_usize b) : Bool) = !b := by
  cases b <;> rfl

/-- C3, counterexample.  On the generic backend, `store_direct` with the
Acquire ordering (and `exchange_direct` with AcqRel) completes normally —
the ordering argument is bound to `_` and ignored, the store happening as a
Relaxed access under the lock — so an invalid store ordering is silently
accepted and downgraded, contradicting the claim that it fails loudly. -/
theorem c3_invalid_store_ordering_silently_accepted :
    (ExclusiveData.store_direct (T := Nat) { data := { val := 4, counter := 9 } }
        3 Ordering.acquire = { data := { val := 3, counter := 9 } })
  ∧ (ExclusiveData.store_direct (T := Nat) { data := { val := 4, counter := 9 } }
        3 Ordering.acquire
      = ExclusiveData.store_direct (T := Nat) { data := { val := 4, counter := 9 } }
        3 Ordering.relaxed)
  ∧ (ExclusiveData.exchange_direct (T := Nat) { data := { val := 4, counter := 9 } }
        3 Ordering.acqRel = (4, { data := { val := 3, counter := 9 } })) :=
  ⟨rfl, rfl, rfl⟩

/-- C3, amended.  In the generic backend the load side does reject invalid
orderings: `load` and `load_linked` with Release or AcqRel fail loudly via
the underlying atomic load.  The store side does not: `store_direct` and
`exchange_direct` ignore their ordering parameter entirely, so every
ordering — including Acquire and AcqRel — is silently accepted and the
access is performed as if Relaxed. -/
theorem c3_loads_reject_stores_ignore_ordering
    (c : ExclusiveData Nat) (v : Nat) (o o' : Ordering) :
    (c.load Ordering.release = Except.error "invalid ordering for a load: Release"
      ∧ c.load Ordering.acqRel = Except.error "invalid ordering for a load: AcqRel"
      ∧ c.load_linked Ordering.release
          = Except.error "invalid ordering for a load: Release"
      ∧ c.load_linked Ordering.acqRel
          = Except.error "invalid ordering for a load: AcqRel")
  ∧ (c.store_direct v o = c.store_direct v o'
      ∧ c.exchange_direct v o = c.exchange_direct v o') :=
  ⟨⟨rfl, rfl, rfl, rfl⟩, rfl, rfl⟩

/-- C4.  Single-threaded success, at the usize payload: after `new(v)`,
`load_linked` captures `(v, v)` and an immediate `store_conditional(w)`
succeeds (returns the success variant), after which `load` returns `w`; and
in general a conditional store never fails spuriously — a snapshot whose
captured pair equals the cell's current (value, counter) always succeeds. -/
theorem c4_ll_then_sc_succeeds
    (v w : Nat) (c : ExclusiveData Nat) (o : Ordering) :
    (ExclusiveData.load_linked (ExclusiveData.new v) Ordering.relaxed
        = Except.ok { data := (v, v) })
  ∧ (({ data := (v, v) } : LinkedData Nat).store_conditional w Ordering.relaxed
        (ExclusiveData.new v)
        = (none, { data := { val := w, counter := (v + 1) % WORD } }))
  ∧ (ExclusiveData.load (T := Nat)
        { data := { val := w, counter := (v + 1) % WORD } } Ordering.relaxed
        = Except.ok w)
  ∧ (({ data := (c.data.val, c.data.counter) } : LinkedData Nat).store_conditional
        w o c).1 = none := by
  refine ⟨rfl, ?_, rfl, ?_⟩
  · unfold LinkedData.store_conditional Llsc.cas ExclusiveData.new
    simp [IsUsize.to_usize]
  · unfold LinkedData.store_conditional Llsc.cas
    simp

/-- C5.  Whenever `store_conditional` fails, the snapshot it returns is
fresh: its captured value is the cell's current value at the failed attempt,
its captured counter is the cell's current counter, the cell is unchanged,
and the returned snapshot is exactly what a new `load_linked` would capture
— so a retry needs no new `load_linked`. -/
theorem c5_failed_sc_returns_fresh_snapshot
    (c : ExclusiveData Nat) (ll : LinkedData Nat) (w : Nat) (o : Ordering)
    (snap : LinkedData Nat) (c' : ExclusiveData Nat)
    (h : ll.store_conditional w o c = (some snap, c')) :
    snap.data.1 = c'.data.val ∧ snap.data.2 = c'.data.counter ∧ c' = c
  ∧ c'.load_linked Ordering.relaxed = Except.ok snap := by
  unfold LinkedData.store_conditional Llsc.cas at h
  by_cases hc : c.data.val = ll.data.1 ∧ c.data.counter = ll.data.2
  · simp [hc] at h
  · simp [hc] at h
    obtain ⟨hsnap, hcell⟩ := h
    subst hsnap
    subst hcell
    exact ⟨rfl, rfl, rfl, rfl⟩

/-- Witness for C5 at a concrete failed conditional store: cell holding
(5, 0), stale snapshot (4, 0), attempted new value 9. -/
theorem c5_failed_sc_returns_fresh_snapshot_witness :
    (5 : Nat) = 5 ∧ (0 : Nat) = 0
  ∧ ({ data := { val := 5, counter := 0 } } : ExclusiveData Nat)
      = { data := { val := 5, counter := 0 } }
  ∧ ExclusiveData.load_linked (T := Nat) { data := { val := 5, counter := 0 } }
      Ordering.relaxed = Except.ok { data := (5, 0) } :=
  c5_failed_sc_returns_fresh_snapshot
    { data := { val := 5, counter := 0 } } { data := (4, 0) } 9 Ordering.relaxed
    { data := (5, 0) } { data := { val := 5, counter := 0 } } (by decide)

/-- C6.  In both backends, the conditional-store compare succeeds exactly
when both the captured value and the captured counter equal the cell's
current fields; on success the cell becomes the new value with the counter
incremented by one modulo the word width (wraparound on overflow); on
failure the cell is left completely unchanged. -/
theorem c6_cas_success_condition_and_effects
    (s : Llsc) (oval ctr nval : Nat) (flag : Bool)
    (mem old : Nat × Nat) (w : Nat) :
    ((s.cas oval ctr nval flag).1 = CasResult.success
        ↔ (s.val = oval ∧ s.counter = ctr))
  ∧ ((s.cas oval ctr nval flag).1 = CasResult.success →
        (s.cas oval ctr nval flag).2
          = { val := nval, counter := (s.counter + 1) % WORD })
  ∧ ((s.cas oval ctr nval flag).1 ≠ CasResult.success →
        (s.cas oval ctr nval flag).2 = s)
  ∧ ((CasImpl.cas_tagged mem old w).1.1 = true ↔ mem = old)
  ∧ ((CasImpl.cas_tagged mem old w).1.1 = true →
        (CasImpl.cas_tagged mem old w).2 = (w, (mem.2 + 1) % WORD))
  ∧ ((CasImpl.cas_tagged mem old w).1.1 = false →
        (CasImpl.cas_tagged mem old w).2 = mem) := by
  unfold Llsc.cas CasImpl.cas_tagged
  by_cases h1 : s.val = oval ∧ s.counter = ctr
  · by_cases h2 : mem = old
    · subst h2
      simp [h1, h1.2]
    · simp [h1, h2, h1.2]
  · by_cases h2 : mem = old
    · subst h2
      simp [h1]
    · simp [h1, h2]

/-- Witness for C6: a successful compare in each backend at concrete inputs,
including a counter at the wraparound boundary in the tagged-CAS backend. -/
theorem c6_cas_success_condition_and_effects_witness :
    (Llsc.cas { val := 3, counter := 7 } 3 7 8 true).2
      = { val := 8, counter := (7 + 1) % WORD }
  ∧ (CasImpl.cas_tagged (4, WORD - 1) (4, WORD - 1) 9).2 = (9, (WORD - 1 + 1) % WORD)
  ∧ (WORD - 1 + 1) % WORD = 0 := by
  refine ⟨?_, ?_, by decide⟩
  · exact (c6_cas_success_condition_and_effects
      { val := 3, counter := 7 } 3 7 8 true (4, WORD - 1) (4, WORD - 1) 9).2.1
      (by decide)
  · exact (c6_cas_success_condition_and_effects
      { val := 3, counter := 7 } 3 7 8 true (4, WORD - 1) (4, WORD - 1) 9).2.2.2.2.1
      (by decide)

/-- C7, counterexample.  The word 2 is neither the encoding of true (1) nor
of false (0), yet the boolean decoder accepts it and returns false — a
silent coercion, not a loud failure. -/
theorem c7_noncanonical_word_coerced :
    IsUsize.to_usize true = 1 ∧ IsUsize.to_usize false = 0
  ∧ (IsUsize.from_usize 2 : Bool) = false :=
  ⟨rfl, rfl, rfl⟩

/-- C7, amended.  The boolean decoder is total and never fails: the word 0
decodes to true and every other word — in particular every word that is
neither the encoding of true nor the encoding of false — is silently
coerced to false. -/
theorem c7_bool_decode_is_total_coercion (v : Nat)
    (_h1 : v ≠ IsUsize.to_usize true) (h2 : v ≠ IsUsize.to_usize false) :
    (IsUsize.from_usize v : Bool) = false := by
  have hv : v ≠ 0 := by
    simpa [IsUsize.to_usize] using h2
  simpa [IsUsize.from_usize] using hv

/-- Witness for C7 at the noncanonical word 42. -/
theorem c7_bool_decode_is_total_coercion_witness :
    (42 : Nat) ≠ IsUsize.to_usize true ∧ (42 : Nat) ≠ IsUsize.to_usize false
  ∧ (IsUsize.from_usize 42 : Bool) = false :=
  ⟨by decide, by decide,
    c7_bool_decode_is_total_coercion 42 (by decide) (by decide)⟩

/-- C8.  For every cell state, snapshot and new value,
`try_store_conditional` succeeds (returns true) exactly in the states where
`store_conditional` succeeds (returns the success variant), and both leave
the cell in the same state — they differ only in discarding the retry
snapshot. -/
theorem c8_try_sc_matches_sc
    (c : ExclusiveData Nat) (ll : LinkedData Nat) (w : Nat) (o o' : Ordering) :
    ((ll.try_store_conditional w o c).1 = true
        ↔ (ll.store_conditional w o' c).1 = none)
  ∧ (ll.try_store_conditional w o c).2 = (ll.store_conditional w o' c).2 := by
  unfold LinkedData.try_store_conditional LinkedData.store_conditional Llsc.cas
  by_cases h : c.data.val = ll.data.1 ∧ c.data.counter = ll.data.2 <;> simp [h]

/-- C9.  Sequential exchange correctness, at the usize payload:
`exchange_direct(w)` returns exactly the value a load immediately before the
call would return, and afterwards the cell holds `w` (a subsequent load
returns `w`); the version counter is untouched. -/
theorem c9_exchange_direct_sequential
    (c : ExclusiveData Nat) (w : Nat) (o : Ordering) :
    Except.ok (c.exchange_direct w o).1 = c.load Ordering.relaxed
  ∧ ((c.exchange_direct w o).2).load Ordering.relaxed = Except.ok w
  ∧ ((c.exchange_direct w o).2).data.val = w
  ∧ ((c.exchange_direct w o).2).data.counter = c.data.counter :=
  ⟨rfl, rfl, rfl, rfl⟩

/-- C10.  The uninitialized pair that `Llsc::cas` conceptually returns on a
successful compare never escapes through the public interface: whenever
`store_conditional` hands a snapshot to the caller, that snapshot's pair is
exactly the `(cval, c_counter)` pair the failure branch of `cas` built from
the cell's current fields; and on a successful compare, `store_conditional`
returns the success variant carrying no pair at all. -/
theorem c10_uninitialized_pair_never_escapes
    (c : ExclusiveData Nat) (ll : LinkedData Nat) (w : Nat) (o : Ordering) :
    (∀ snap c', ll.store_conditional w o c = (some snap, c') →
        c.data.cas ll.data.1 ll.data.2 (IsUsize.to_usize w) true
          = (CasResult.failure snap.data.1 snap.data.2, c'.data)
      ∧ snap.data = (c.data.val, c.data.counter))
  ∧ ((c.data.cas ll.data.1 ll.data.2 (IsUsize.to_usize w) true).1
        = CasResult.success →
      ll.store_conditional w o c
        = (none, { data := (c.data.cas ll.data.1 ll.data.2
            (IsUsize.to_usize w) true).2 })) := by
  unfold LinkedData.store_conditional Llsc.cas
  by_cases h : c.data.val = ll.data.1 ∧ c.data.counter = ll.data.2
  · constructor
    · intro snap c' hcontra
      simp [h] at hcontra
    · intro _
      simp [h]
  · constructor
    · intro snap c' heq
      simp [h] at heq
      obtain ⟨hsnap, hcell⟩ := heq
      subst hsnap
      subst hcell
      simp [h]
    · intro hcontra
      simp [h] at hcontra

/-- Witness for C10 at a concrete failed conditional store: cell holding
(5, 0), stale snapshot (4, 0), attempted new value 9. -/
theorem c10_uninitialized_pair_never_escapes_witness :
    (Llsc.cas { val := 5, counter := 0 } 4 0 9 true
        = (CasResult.failure 5 0, { val := 5, counter := 0 }))
  ∧ (({ data := (5, 0) } : LinkedData Nat).data = (5, 0)) :=
  (c10_uninitialized_pair_never_escapes
      { data := { val := 5, counter := 0 } } { data := (4, 0) } 9
      Ordering.relaxed).1
    { data := (5, 0) } { data := { val := 5, counter := 0 } } (by decide)

end ExclusivePtr
